import Mathlib

/-!
# Deployment handler (`handlers/deploymentHandler.go`)

A shallow embedding of `deploymentHandler.apply` and `deploymentHandler.delete`.

* Go pointers that may be `nil` are `Option` values; a `nil` error is `none`.
* The Kubernetes API client is external to the repository: it is a parameter
  (`DeploymentInterface σ`), a family of state transformers over an arbitrary cluster
  state `σ`.  Every client call is recorded, with the error it returned, in a trace.
  Objects are values: a client call does not change the object it is given.
* The logger is a sink: `Infof` and `Errorf` append one entry to the log.
* The handler is one built by `newDeploymentHandler` from a client and a logger that are
  not nil.
* The delays of the retry policy are not modelled.
* A Go run-time panic is an explicit outcome (`Outcome.panicked`).
* `fmt.Sprintf` with `%s` and a literal tail is string concatenation; the `%q` verb
  (`strconv.Quote`) belongs to the Go standard library and is a parameter `q`.
-/

namespace Handlers

/-! ## Data model -/

/-- Go `map[string]string`; `none` is the nil map. -/
abbrev StringMap := Option (List (String × String))

/-- Kind and API version of an object (`metav1.TypeMeta`). -/
structure TypeMeta where
  Kind : String
  APIVersion : String
  deriving DecidableEq, Repr

/-- Object metadata (`metav1.ObjectMeta`). -/
structure ObjectMeta where
  Name : String
  GenerateName : String
  Namespace : String
  SelfLink : String
  UID : String
  ResourceVersion : String
  Generation : Int
  Labels : StringMap
  Annotations : StringMap
  OwnerReferences : List String
  Finalizers : List String
  ClusterName : String
  deriving DecidableEq, Repr

/-- One container of a pod template. -/
structure Container where
  Name : String
  Image : String
  deriving DecidableEq, Repr

/-- Desired state of a deployment (`appsv1.DeploymentSpec`). -/
structure DeploymentSpec where
  Replicas : Option Int
  Selector : StringMap
  TemplateLabels : StringMap
  Containers : List Container
  MinReadySeconds : Int
  Paused : Bool
  deriving DecidableEq, Repr

/-- Observed state of a deployment (`appsv1.DeploymentStatus`). -/
structure DeploymentStatus where
  ObservedGeneration : Int
  Replicas : Int
  UpdatedReplicas : Int
  ReadyReplicas : Int
  AvailableReplicas : Int
  deriving DecidableEq, Repr

/-- The workload object (`appsv1.Deployment`). -/
structure Deployment where
  TypeMeta : TypeMeta
  ObjectMeta : ObjectMeta
  Spec : DeploymentSpec
  Status : DeploymentStatus
  deriving DecidableEq, Repr

/-- A value of the interface type `runtime.Object`: the nil interface, a
`*appsv1.Deployment` (a pointer, possibly nil), or an object of another kind. -/
inductive RuntimeObject
  | nil
  | deployment (p : Option Deployment)
  | other (kind : String)
  deriving DecidableEq, Repr

/-- Reason of an API status error (`metav1.StatusReason`); `unknown` also stands for an
error that carries no API status. -/
inductive StatusReason
  | unknown
  | notFound
  | alreadyExists
  | conflict
  | forbidden
  | invalid
  | serverTimeout
  | internalError
  deriving DecidableEq, Repr

/-- A non-nil Go `error`: its API reason and the text of `Error()`. -/
structure GoError where
  reason : StatusReason
  message : String
  deriving DecidableEq, Repr

/-- The test `errors.IsNotFound`; false on the nil error. -/
def IsNotFound : Option GoError → Bool
  | some e => decide (e.reason = StatusReason.notFound)
  | none => false

/-- The test `errors.IsConflict`; false on the nil error. -/
def IsConflict : Option GoError → Bool
  | some e => decide (e.reason = StatusReason.conflict)
  | none => false

/-- Deletion propagation policies (`metav1.DeletionPropagation`). -/
inductive DeletionPropagation
  | Orphan
  | Background
  | Foreground
  deriving DecidableEq, Repr

/-- Options of a delete request (`metav1.DeleteOptions`). -/
structure DeleteOptions where
  GracePeriodSeconds : Option Int
  PropagationPolicy : Option DeletionPropagation
  deriving DecidableEq, Repr

/-- The constant `apiv1.NamespaceDefault`. -/
def NamespaceDefault : String := "default"

/-! ## The API client, the trace and the log -/

/-- The typed deployments client obtained from `kubeClient.AppsV1().Deployments(ns)`,
as state transformers over a cluster state `σ`.  Each call may return an object, an
error, both or neither. -/
structure DeploymentInterface (σ : Type) where
  Get : String → String → σ → (Option Deployment × Option GoError) × σ
  Create : String → Deployment → σ → (Option Deployment × Option GoError) × σ
  Update : String → Deployment → σ → (Option Deployment × Option GoError) × σ
  Delete : String → String → DeleteOptions → σ → Option GoError × σ

/-- A request sent to the API client, with its arguments. -/
inductive Call
  | get (ns name : String)
  | create (ns : String) (obj : Deployment)
  | update (ns : String) (obj : Deployment)
  | delete (ns name : String) (opts : DeleteOptions)
  deriving DecidableEq, Repr

/-- A request together with the error it returned. -/
structure Event where
  call : Call
  err : Option GoError
  deriving DecidableEq, Repr

/-- Log levels used by the handler. -/
inductive Level
  | info
  | error
  deriving DecidableEq, Repr

/-- One entry of the log sink. -/
structure LogEntry where
  level : Level
  msg : String
  deriving DecidableEq, Repr

/-- Everything a handler call can change: the cluster, the trace of client calls and
the log. -/
structure World (σ : Type) where
  cluster : σ
  trace : List Event
  log : List LogEntry

/-- The handler of the source: its client; the logger writes to `World.log`. -/
structure deploymentHandler (σ : Type) where
  kubeClient : DeploymentInterface σ

/-- Kinds of run-time panic the handler can raise. -/
inductive Panic
  | typeAssertion
  | nilDereference
  deriving DecidableEq, Repr

/-- How a call of the handler ends. -/
inductive Outcome
  | returned (msg : String)
  | panicked (why : Panic)
  deriving DecidableEq, Repr

variable {σ : Type}

/-- The call `deploymentsClient.Get(name, metav1.GetOptions{})`. -/
def callGet (c : DeploymentInterface σ) (ns name : String) (w : World σ) :
    (Option Deployment × Option GoError) × World σ :=
  let r := c.Get ns name w.cluster
  (r.1, { w with cluster := r.2, trace := w.trace ++ [Event.mk (Call.get ns name) r.1.2] })

/-- The call `deploymentsClient.Create(obj)`. -/
def callCreate (c : DeploymentInterface σ) (ns : String) (obj : Deployment) (w : World σ) :
    (Option Deployment × Option GoError) × World σ :=
  let r := c.Create ns obj w.cluster
  (r.1, { w with cluster := r.2, trace := w.trace ++ [Event.mk (Call.create ns obj) r.1.2] })

/-- The call `deploymentsClient.Update(obj)`. -/
def callUpdate (c : DeploymentInterface σ) (ns : String) (obj : Deployment) (w : World σ) :
    (Option Deployment × Option GoError) × World σ :=
  let r := c.Update ns obj w.cluster
  (r.1, { w with cluster := r.2, trace := w.trace ++ [Event.mk (Call.update ns obj) r.1.2] })

/-- The call `deploymentsClient.Delete(name, opts)`. -/
def callDelete (c : DeploymentInterface σ) (ns name : String) (opts : DeleteOptions)
    (w : World σ) : Option GoError × World σ :=
  let r := c.Delete ns name opts w.cluster
  (r.1, { w with cluster := r.2, trace := w.trace ++ [Event.mk (Call.delete ns name opts) r.1] })

/-- The call `h.logger.Infof(msg)`: with no arguments the template is logged as it is. -/
def Infof (msg : String) (w : World σ) : World σ :=
  { w with log := w.log ++ [LogEntry.mk Level.info msg] }

/-- The call `h.logger.Errorf(msg)`: with no arguments the template is logged as it is. -/
def Errorf (msg : String) (w : World σ) : World σ :=
  { w with log := w.log ++ [LogEntry.mk Level.error msg] }

/-! ## Retry on conflict -/

/-- Modelled from the spec: the attempt budget of `retry.DefaultRetry` (package
`k8s.io/client-go/util/retry`, not among the sources): "a fixed small number of
attempts", five. -/
def DefaultRetry : Nat := 5

/-- Modelled from the spec: the loop inside `retry.RetryOnConflict` (not among the
sources).  The cycle `fn` is run until it succeeds, fails with an error that is not a
conflict, or the attempt budget is exhausted; `lastConflictErr` is the conflict of the
latest attempt.  Delays between attempts are not modelled. -/
def retryLoop {S : Type} (fn : S → Option GoError × S) :
    Nat → Option GoError → S → Option GoError × S
  | 0, lastConflictErr, s => (lastConflictErr, s)
  | n + 1, _, s =>
    match fn s with
    | (none, s1) => (none, s1)
    | (some err, s1) =>
      if IsConflict (some err) then retryLoop fn n (some err) s1 else (some err, s1)

/-- Modelled from the spec: `retry.RetryOnConflict(backoff, fn)` (not among the
sources): "On a concurrent-modification conflict, retry the merge-and-submit cycle
using a bounded backoff policy until it succeeds or the attempt budget is exhausted";
when the budget is exhausted the last conflict is the error returned. -/
def RetryOnConflict {S : Type} (steps : Nat) (fn : S → Option GoError × S) (s : S) :
    Option GoError × S :=
  retryLoop fn steps none s

/-! ## The handler -/

/-- Lines 37-39 of the source: the three assignments of the retried closure, which
overwrite the labels, the annotations and the spec of `current` with the descriptor's. -/
def applyOverrides (current deployment : Deployment) : Deployment :=
  let c1 := { current with
    ObjectMeta := { current.ObjectMeta with Labels := deployment.ObjectMeta.Labels } }
  let c2 := { c1 with
    ObjectMeta := { c1.ObjectMeta with Annotations := deployment.ObjectMeta.Annotations } }
  { c2 with Spec := deployment.Spec }

/-- Lines 36-42 of the source: the closure given to `retry.RetryOnConflict`.  Its
state is the object behind the captured pointer `current` and the world; the object
returned by `Update` is discarded. -/
def updateAttempt (c : DeploymentInterface σ) (deployment : Deployment)
    (s : Deployment × World σ) : Option GoError × (Deployment × World σ) :=
  let current := applyOverrides s.1 deployment
  let r := callUpdate c NamespaceDefault current s.2
  (r.1.2, (current, r.2))

/-- The method `deploymentHandler.apply` (lines 29-66 of the source). -/
def deploymentHandler.apply (q : String → String) (h : deploymentHandler σ)
    (rawData : RuntimeObject) (w : World σ) : Outcome × World σ :=
  match rawData with
  | RuntimeObject.nil => (Outcome.panicked Panic.typeAssertion, w)
  | RuntimeObject.other _ => (Outcome.panicked Panic.typeAssertion, w)
  | RuntimeObject.deployment none => (Outcome.panicked Panic.nilDereference, w)
  | RuntimeObject.deployment (some deployment) =>
    let name := deployment.ObjectMeta.Name
    let g := callGet h.kubeClient NamespaceDefault name w
    match g.1.1, g.1.2 with
    | some current, none =>
      let u := RetryOnConflict DefaultRetry (updateAttempt h.kubeClient deployment)
        (current, g.2)
      match u.1 with
      | some err =>
        let msg := "update deployment err: " ++ err.message ++ "\n"
        (Outcome.returned msg, Errorf msg u.2.2)
      | none =>
        let msg := "update deployment " ++ q name ++ "\n"
        (Outcome.returned msg, Infof msg u.2.2)
    | _, getErr =>
      if IsNotFound getErr then
        let r := callCreate h.kubeClient NamespaceDefault deployment g.2
        match r.1.2, r.1.1 with
        | some err, _ =>
          let msg := "create deployment err: " ++ err.message ++ "\n"
          (Outcome.returned msg, Errorf msg r.2)
        | none, some result =>
          let msg := "create deployment " ++ q result.ObjectMeta.Name ++ "\n"
          (Outcome.returned msg, Infof msg r.2)
        | none, none => (Outcome.panicked Panic.nilDereference, r.2)
      else
        match getErr with
        | some err =>
          let msg := "get deployment err: " ++ err.message ++ "\n"
          (Outcome.returned msg, Errorf msg g.2)
        | none => (Outcome.panicked Panic.nilDereference, g.2)

/-- The method `deploymentHandler.delete` (lines 68-95 of the source). -/
def deploymentHandler.delete (q : String → String) (h : deploymentHandler σ)
    (rawData : RuntimeObject) (w : World σ) : Outcome × World σ :=
  match rawData with
  | RuntimeObject.nil => (Outcome.panicked Panic.typeAssertion, w)
  | RuntimeObject.other _ => (Outcome.panicked Panic.typeAssertion, w)
  | RuntimeObject.deployment none => (Outcome.panicked Panic.nilDereference, w)
  | RuntimeObject.deployment (some deployment) =>
    let name := deployment.ObjectMeta.Name
    let g := callGet h.kubeClient NamespaceDefault name w
    match g.1.1, g.1.2 with
    | some _, none =>
      let deletePolicy := DeletionPropagation.Foreground
      let r := callDelete h.kubeClient NamespaceDefault name
        (DeleteOptions.mk none (some deletePolicy)) g.2
      match r.1 with
      | some err =>
        let msg := "delete deployment err: " ++ err.message ++ "\n"
        (Outcome.returned msg, Errorf msg r.2)
      | none =>
        let msg := "delete deployment " ++ q name ++ "\n"
        (Outcome.returned msg, Infof msg r.2)
    | _, getErr =>
      if IsNotFound getErr then
        let msg := "deployment does not exist: " ++ name ++ "\n"
        (Outcome.returned msg, Infof msg g.2)
      else
        match getErr with
        | some err =>
          let msg := "get deployment err: " ++ err.message ++ "\n"
          (Outcome.returned msg, Errorf msg g.2)
        | none => (Outcome.panicked Panic.nilDereference, g.2)

/-! ## Specification vocabulary -/

/-- Cluster state after `k` successive `Update` calls submitting `obj`. -/
def updCluster (c : DeploymentInterface σ) (obj : Deployment) : Nat → σ → σ
  | 0, s => s
  | k + 1, s => updCluster c obj k (c.Update NamespaceDefault obj s).2

/-- Error returned by the `Update` call number `k + 1` of a run of successive `Update`
calls submitting `obj`, started in cluster state `s`. -/
def updErr (c : DeploymentInterface σ) (obj : Deployment) (s : σ) (k : Nat) :
    Option GoError :=
  (c.Update NamespaceDefault obj (updCluster c obj k s)).1.2

/-- Trace of the first `n` successive `Update` calls submitting `obj`. -/
def updEvents (c : DeploymentInterface σ) (obj : Deployment) (s : σ) (n : Nat) :
    List Event :=
  (List.range n).map fun k => Event.mk (Call.update NamespaceDefault obj) (updErr c obj s k)

/-- Position (counted from one) of the first result that is not a conflict error in the
sequence `res`, capped at `budget`. -/
def firstNonConflict (res : Nat → Option GoError) (budget : Nat) : Nat :=
  match (List.range budget).find? (fun k => !IsConflict (res k)) with
  | some k => k + 1
  | none => budget

/-- The world after `m` successive `Update` calls submitting `obj`. -/
def worldAfter (c : DeploymentInterface σ) (obj : Deployment) (w : World σ) (m : Nat) :
    World σ :=
  { cluster := updCluster c obj m w.cluster
    trace := w.trace ++ updEvents c obj w.cluster m
    log := w.log }

/-- Whether a request is a lookup. -/
def Call.isGet : Call → Bool
  | Call.get _ _ => true
  | _ => false

/-- Whether a request is a create. -/
def Call.isCreate : Call → Bool
  | Call.create _ _ => true
  | _ => false

/-- Whether a request is an update. -/
def Call.isUpdate : Call → Bool
  | Call.update _ _ => true
  | _ => false

/-- Whether a request is a delete. -/
def Call.isDelete : Call → Bool
  | Call.delete _ _ _ => true
  | _ => false

/-- The requests of a trace, in order. -/
def calls (tr : List Event) : List Call := tr.map Event.call

/-- Number of `Update` requests in a trace. -/
def countUpdates (tr : List Event) : Nat := ((calls tr).filter Call.isUpdate).length

/-- What the lookup of `apply` and `delete` returns for descriptor `d` in world `w`. -/
def lookup (h : deploymentHandler σ) (d : Deployment) (w : World σ) :
    Option Deployment × Option GoError :=
  (h.kubeClient.Get NamespaceDefault d.ObjectMeta.Name w.cluster).1

/-- Cluster state after that lookup. -/
def afterLookup (h : deploymentHandler σ) (d : Deployment) (w : World σ) : σ :=
  (h.kubeClient.Get NamespaceDefault d.ObjectMeta.Name w.cluster).2

/-- The trace entry of that lookup. -/
def lookupEvent (h : deploymentHandler σ) (d : Deployment) (w : World σ) : Event :=
  Event.mk (Call.get NamespaceDefault d.ObjectMeta.Name) (lookup h d w).2

/-- The outcomes the handler reports. -/
inductive OutcomeKind
  | created
  | updated
  | deleted
  | alreadyAbsent
  | lookupError
  | createError
  | updateError
  | deleteError
  deriving DecidableEq, Repr

/-- The successes: created, updated, deleted, or already absent on delete. -/
def OutcomeKind.isSuccess : OutcomeKind → Bool
  | OutcomeKind.created => true
  | OutcomeKind.updated => true
  | OutcomeKind.deleted => true
  | OutcomeKind.alreadyAbsent => true
  | _ => false

/-- The outcome of a handler call, read off the last client call it made and the error
that call returned; `isDelete` tells `delete` from `apply`.  A lookup comes last only
when it decides the outcome: not found on `delete`, or a lookup error. -/
def outcomeKind (isDelete : Bool) (last : Event) : Option OutcomeKind :=
  match last.call, last.err with
  | Call.create _ _, none => some OutcomeKind.created
  | Call.create _ _, some _ => some OutcomeKind.createError
  | Call.update _ _, none => some OutcomeKind.updated
  | Call.update _ _, some _ => some OutcomeKind.updateError
  | Call.delete _ _ _, none => some OutcomeKind.deleted
  | Call.delete _ _ _, some _ => some OutcomeKind.deleteError
  | Call.get _ _, err =>
    if isDelete && IsNotFound err then some OutcomeKind.alreadyAbsent
    else if err.isSome then some OutcomeKind.lookupError
    else none

/-- The level the contract asks for: info on success, error on failure. -/
def levelOf (k : OutcomeKind) : Level :=
  if k.isSuccess then Level.info else Level.error

/-! ## A scripted client, for concrete runs -/

/-- Answers of a scripted client: one for each kind of request, and a queue for
`Update`, which answers success once the queue is empty. -/
structure Script where
  onGet : Option Deployment × Option GoError
  onCreate : Option Deployment × Option GoError
  onUpdate : List (Option GoError)
  onDelete : Option GoError
  deriving DecidableEq, Repr

/-- The client that answers from its script. -/
def scripted : DeploymentInterface Script where
  Get := fun _ _ s => (s.onGet, s)
  Create := fun _ _ s => (s.onCreate, s)
  Update := fun _ obj s =>
    match s.onUpdate with
    | [] => ((some obj, none), s)
    | e :: rest => ((if e.isNone then some obj else none, e), { s with onUpdate := rest })
  Delete := fun _ _ _ s => (s.onDelete, s)

/-- The handler over the scripted client. -/
def scriptedHandler : deploymentHandler Script := deploymentHandler.mk scripted

/-- A quoting function for concrete runs: the text between double quotes, which is
what `%q` prints for a string of letters, digits and dashes. -/
def quotePlain (s : String) : String := "\"" ++ s ++ "\""

/-- A sample descriptor. -/
def webDescriptor : Deployment :=
  { TypeMeta := TypeMeta.mk "Deployment" "apps/v1"
    ObjectMeta :=
      { Name := "web", GenerateName := "", Namespace := "default", SelfLink := "",
        UID := "", ResourceVersion := "", Generation := 0,
        Labels := some [("app", "web")], Annotations := none, OwnerReferences := [],
        Finalizers := [], ClusterName := "" }
    Spec :=
      { Replicas := some 3, Selector := some [("app", "web")],
        TemplateLabels := some [("app", "web")],
        Containers := [Container.mk "web" "nginx:1.25"], MinReadySeconds := 0,
        Paused := false }
    Status := DeploymentStatus.mk 0 0 0 0 0 }

/-- The object of the same name as stored in the cluster. -/
def webStored : Deployment :=
  { TypeMeta := TypeMeta.mk "Deployment" "apps/v1"
    ObjectMeta :=
      { Name := "web", GenerateName := "", Namespace := "default",
        SelfLink := "/apis/apps/v1/namespaces/default/deployments/web",
        UID := "7f1c", ResourceVersion := "41", Generation := 2,
        Labels := some [("app", "old")], Annotations := some [("note", "x")],
        OwnerReferences := [], Finalizers := ["foregroundDeletion"], ClusterName := "" }
    Spec :=
      { Replicas := some 1, Selector := some [("app", "old")],
        TemplateLabels := some [("app", "old")],
        Containers := [Container.mk "web" "nginx:1.19"], MinReadySeconds := 0,
        Paused := false }
    Status := DeploymentStatus.mk 2 1 1 1 1 }

/-- A conflict error. -/
def errConflict : GoError := GoError.mk StatusReason.conflict "the object has been modified"

/-- A not-found error. -/
def errNotFound : GoError := GoError.mk StatusReason.notFound "deployments \"web\" not found"

/-- An authorization error. -/
def errForbidden : GoError := GoError.mk StatusReason.forbidden "forbidden"

/-- An empty world over a script. -/
def start (s : Script) : World Script := { cluster := s, trace := [], log := [] }

/-- The object is absent and the create request is refused. -/
def absentCreateRefused : Script :=
  { onGet := (none, some errNotFound), onCreate := (none, some errForbidden),
    onUpdate := [], onDelete := none }

/-- The object is absent and the create request succeeds. -/
def absentCreateOk : Script :=
  { onGet := (none, some errNotFound), onCreate := (some webDescriptor, none),
    onUpdate := [], onDelete := none }

/-- The object is absent and the create request returns neither object nor error. -/
def absentCreateNothing : Script :=
  { onGet := (none, some errNotFound), onCreate := (none, none),
    onUpdate := [], onDelete := none }

/-- The object exists; updates conflict twice, then succeed. -/
def presentTwoConflicts : Script :=
  { onGet := (some webStored, none), onCreate := (none, none),
    onUpdate := [some errConflict, some errConflict, none], onDelete := none }

/-- The object exists; every update within the budget conflicts. -/
def presentAlwaysConflict : Script :=
  { onGet := (some webStored, none), onCreate := (none, none),
    onUpdate := [some errConflict, some errConflict, some errConflict, some errConflict,
      some errConflict, some errConflict],
    onDelete := none }

/-- The object exists; the first update is refused. -/
def presentUpdateRefused : Script :=
  { onGet := (some webStored, none), onCreate := (none, none),
    onUpdate := [some errForbidden], onDelete := none }

/-- The object exists and the delete request succeeds. -/
def presentDeleteOk : Script :=
  { onGet := (some webStored, none), onCreate := (none, none),
    onUpdate := [], onDelete := none }

/-- The object exists and the delete request is refused. -/
def presentDeleteRefused : Script :=
  { onGet := (some webStored, none), onCreate := (none, none),
    onUpdate := [], onDelete := some errForbidden }

/-- The lookup is refused. -/
def lookupRefused : Script :=
  { onGet := (none, some errForbidden), onCreate := (none, none),
    onUpdate := [], onDelete := none }

/-- The lookup returns neither an object nor an error. -/
def lookupNothing : Script :=
  { onGet := (none, none), onCreate := (none, none), onUpdate := [], onDelete := none }

/-! ## Lemmas on the retry loop -/

theorem updErr_succ (c : DeploymentInterface σ) (obj : Deployment) (s : σ) (k : Nat) :
    updErr c obj s (k + 1) = updErr c obj (c.Update NamespaceDefault obj s).2 k := rfl

theorem updEvents_succ (c : DeploymentInterface σ) (obj : Deployment) (s : σ) (n : Nat) :
    updEvents c obj s (n + 1) =
      Event.mk (Call.update NamespaceDefault obj) (c.Update NamespaceDefault obj s).1.2 ::
        updEvents c obj (c.Update NamespaceDefault obj s).2 n := by
  simp only [updEvents, List.range_succ_eq_map, List.map_cons, List.map_map]
  rfl

theorem updEvents_zero (c : DeploymentInterface σ) (obj : Deployment) (s : σ) :
    updEvents c obj s 0 = [] := rfl

theorem updEvents_one (c : DeploymentInterface σ) (obj : Deployment) (s : σ) :
    updEvents c obj s 1 =
      [Event.mk (Call.update NamespaceDefault obj) (c.Update NamespaceDefault obj s).1.2] :=
  rfl

theorem calls_updEvents (c : DeploymentInterface σ) (obj : Deployment) (s : σ) (n : Nat) :
    calls (updEvents c obj s n) = List.replicate n (Call.update NamespaceDefault obj) := by
  induction n generalizing s with
  | zero => rfl
  | succ n ih =>
    rw [updEvents_succ, List.replicate_succ]
    simp only [calls, List.map_cons] at ih ⊢
    rw [ih]

theorem firstNonConflict_zero (res : Nat → Option GoError) : firstNonConflict res 0 = 0 := rfl

theorem firstNonConflict_succ (res : Nat → Option GoError) (n : Nat) :
    firstNonConflict res (n + 1) =
      if IsConflict (res 0) then firstNonConflict (fun k => res (k + 1)) n + 1 else 1 := by
  unfold firstNonConflict
  rw [List.range_succ_eq_map, List.find?_cons]
  cases h0 : IsConflict (res 0)
  · simp
  · simp only [Bool.not_true, List.find?_map, if_true]
    have hcomp : ((fun k => !IsConflict (res k)) ∘ Nat.succ) =
        (fun k => !IsConflict (res (k + 1))) := rfl
    rw [hcomp]
    cases List.find? (fun k => !IsConflict (res (k + 1))) (List.range n) <;> rfl

theorem firstNonConflict_pos (res : Nat → Option GoError) (n : Nat) :
    1 ≤ firstNonConflict res (n + 1) := by
  rw [firstNonConflict_succ]
  split <;> omega

theorem firstNonConflict_le (res : Nat → Option GoError) (n : Nat) :
    firstNonConflict res n ≤ n := by
  induction n generalizing res with
  | zero => simp [firstNonConflict_zero]
  | succ n ih =>
    rw [firstNonConflict_succ]
    split
    · have := ih (fun k => res (k + 1)); omega
    · omega

/-- All of the first `budget` results are conflicts: the position is the budget. -/
theorem firstNonConflict_all (res : Nat → Option GoError) (budget : Nat)
    (hall : ∀ k, k < budget → IsConflict (res k) = true) :
    firstNonConflict res budget = budget := by
  induction budget generalizing res with
  | zero => rfl
  | succ n ih =>
    rw [firstNonConflict_succ, if_pos (hall 0 (Nat.succ_pos n)),
      ih (fun k => res (k + 1)) (fun k hk => hall (k + 1) (Nat.succ_lt_succ hk))]

/-- The first `n` results are conflicts and result `n + 1` is not, within the budget. -/
theorem firstNonConflict_at (res : Nat → Option GoError) (budget n : Nat)
    (hn : n < budget) (hpre : ∀ k, k < n → IsConflict (res k) = true)
    (hat : IsConflict (res n) = false) :
    firstNonConflict res budget = n + 1 := by
  induction budget generalizing res n with
  | zero => omega
  | succ b ih =>
    rw [firstNonConflict_succ]
    cases n with
    | zero => simp [hat]
    | succ m =>
      rw [if_pos (hpre 0 (Nat.succ_pos m)),
        ih (fun k => res (k + 1)) m (by omega) (fun k hk => hpre (k + 1) (Nat.succ_lt_succ hk)) hat]

theorem applyOverrides_idem (x d : Deployment) :
    applyOverrides (applyOverrides x d) d = applyOverrides x d := rfl

/-- The retry loop over the closure of `apply`, in closed form: it issues
`firstNonConflict` updates, all of them submitting `M`, and returns the error of the
last one. -/
theorem retryLoop_updateAttempt (c : DeploymentInterface σ) (d M : Deployment) :
    ∀ (n : Nat) (last : Option GoError) (x : Deployment) (w : World σ),
      applyOverrides x d = M →
      retryLoop (updateAttempt c d) n last (x, w) =
        (if n = 0 then last
          else updErr c M w.cluster (firstNonConflict (updErr c M w.cluster) n - 1),
         (if n = 0 then x else M,
          worldAfter c M w (firstNonConflict (updErr c M w.cluster) n))) := by
  intro n
  induction n with
  | zero =>
    intro last x w _
    simp [retryLoop, firstNonConflict_zero, worldAfter, updCluster, updEvents]
  | succ n ih =>
    intro last x w hx
    have hM : applyOverrides M d = M := by rw [← hx]; exact applyOverrides_idem x d
    have h0 : updErr c M w.cluster 0 = (c.Update NamespaceDefault M w.cluster).1.2 := rfl
    rw [retryLoop]
    simp only [updateAttempt, hx, callUpdate]
    rw [firstNonConflict_succ, h0]
    cases he : (c.Update NamespaceDefault M w.cluster).1.2 with
    | none =>
      simp [IsConflict, worldAfter, updCluster, updEvents_one, he, h0]
    | some e =>
      cases hc : IsConflict (some e) with
      | false =>
        simp [worldAfter, updCluster, updEvents_one, he, h0, hc]
      | true =>
        simp only [if_true, Nat.add_sub_cancel, Nat.succ_ne_zero, if_false]
        rw [ih (some e) M _ hM]
        have hsh : (fun k => updErr c M w.cluster (k + 1)) =
            updErr c M (c.Update NamespaceDefault M w.cluster).2 := by
          funext k; rfl
        simp only [hsh]
        cases n with
        | zero =>
          simp [firstNonConflict_zero, worldAfter, updCluster, updEvents_one, updEvents_zero,
            he, h0, hc]
        | succ m =>
          have hp := firstNonConflict_pos (updErr c M (c.Update NamespaceDefault M w.cluster).2) m
          obtain ⟨j, hj⟩ : ∃ j, firstNonConflict
              (updErr c M (c.Update NamespaceDefault M w.cluster).2) (m + 1) = j + 1 :=
            ⟨_, (Nat.sub_add_cancel hp).symm⟩
          simp only [Nat.succ_ne_zero, if_false, hj, Nat.add_sub_cancel]
          simp [worldAfter, updCluster, updEvents_succ, he, updErr_succ, hc]

/-! ## The branches of `apply` and `delete` -/

/-- The update path of `apply` in closed form. -/
theorem apply_found (q : String → String) (h : deploymentHandler σ) (d cur : Deployment)
    (w : World σ) (hget : lookup h d w = (some cur, none)) :
    deploymentHandler.apply q h (RuntimeObject.deployment (some d)) w =
      (match updErr h.kubeClient (applyOverrides cur d) (afterLookup h d w)
          (firstNonConflict (updErr h.kubeClient (applyOverrides cur d) (afterLookup h d w))
            DefaultRetry - 1) with
        | some err =>
          (Outcome.returned ("update deployment err: " ++ err.message ++ "\n"),
            Errorf ("update deployment err: " ++ err.message ++ "\n")
              (worldAfter h.kubeClient (applyOverrides cur d)
                (World.mk (afterLookup h d w) (w.trace ++ [lookupEvent h d w]) w.log)
                (firstNonConflict
                  (updErr h.kubeClient (applyOverrides cur d) (afterLookup h d w))
                  DefaultRetry)))
        | none =>
          (Outcome.returned ("update deployment " ++ q d.ObjectMeta.Name ++ "\n"),
            Infof ("update deployment " ++ q d.ObjectMeta.Name ++ "\n")
              (worldAfter h.kubeClient (applyOverrides cur d)
                (World.mk (afterLookup h d w) (w.trace ++ [lookupEvent h d w]) w.log)
                (firstNonConflict
                  (updErr h.kubeClient (applyOverrides cur d) (afterLookup h d w))
                  DefaultRetry)))) := by
  have hg : (h.kubeClient.Get NamespaceDefault d.ObjectMeta.Name w.cluster).1 =
      (some cur, none) := hget
  simp only [deploymentHandler.apply, callGet, hg, RetryOnConflict]
  rw [retryLoop_updateAttempt h.kubeClient d (applyOverrides cur d) DefaultRetry none cur _ rfl]
  simp only [DefaultRetry, Nat.succ_ne_zero, if_false, lookupEvent, lookup, afterLookup, hg]

/-- The create path of `apply` in closed form. -/
theorem apply_notFound (q : String → String) (h : deploymentHandler σ) (d : Deployment)
    (w : World σ) (hnf : IsNotFound (lookup h d w).2 = true) :
    deploymentHandler.apply q h (RuntimeObject.deployment (some d)) w =
      (match (h.kubeClient.Create NamespaceDefault d (afterLookup h d w)).1.2,
          (h.kubeClient.Create NamespaceDefault d (afterLookup h d w)).1.1 with
        | some err, _ =>
          (Outcome.returned ("create deployment err: " ++ err.message ++ "\n"),
            Errorf ("create deployment err: " ++ err.message ++ "\n")
              (callCreate h.kubeClient NamespaceDefault d
                (World.mk (afterLookup h d w) (w.trace ++ [lookupEvent h d w]) w.log)).2)
        | none, some result =>
          (Outcome.returned ("create deployment " ++ q result.ObjectMeta.Name ++ "\n"),
            Infof ("create deployment " ++ q result.ObjectMeta.Name ++ "\n")
              (callCreate h.kubeClient NamespaceDefault d
                (World.mk (afterLookup h d w) (w.trace ++ [lookupEvent h d w]) w.log)).2)
        | none, none =>
          (Outcome.panicked Panic.nilDereference,
            (callCreate h.kubeClient NamespaceDefault d
              (World.mk (afterLookup h d w) (w.trace ++ [lookupEvent h d w]) w.log)).2)) := by
  unfold lookup at hnf
  cases hy : (h.kubeClient.Get NamespaceDefault d.ObjectMeta.Name w.cluster).1.2 with
  | none => rw [hy] at hnf; simp [IsNotFound] at hnf
  | some e =>
    rw [hy] at hnf
    simp only [deploymentHandler.apply, callGet, hy, hnf, if_true, lookupEvent, lookup,
      afterLookup, callCreate]
    cases (h.kubeClient.Get NamespaceDefault d.ObjectMeta.Name w.cluster).1.1 <;>
      simp [hnf]

/-- The lookup-failure path of `apply` in closed form. -/
theorem apply_lookupErr (q : String → String) (h : deploymentHandler σ) (d : Deployment)
    (w : World σ) (e : GoError) (he : (lookup h d w).2 = some e)
    (hnf : IsNotFound (some e) = false) :
    deploymentHandler.apply q h (RuntimeObject.deployment (some d)) w =
      (Outcome.returned ("get deployment err: " ++ e.message ++ "\n"),
        Errorf ("get deployment err: " ++ e.message ++ "\n")
          (World.mk (afterLookup h d w) (w.trace ++ [lookupEvent h d w]) w.log)) := by
  unfold lookup at he
  simp only [deploymentHandler.apply, callGet, he, hnf, lookupEvent, lookup, afterLookup]
  cases (h.kubeClient.Get NamespaceDefault d.ObjectMeta.Name w.cluster).1.1 <;>
    simp [hnf]

/-- A lookup that returns neither an object nor an error makes `apply` panic. -/
theorem apply_nothing (q : String → String) (h : deploymentHandler σ) (d : Deployment)
    (w : World σ) (hget : lookup h d w = (none, none)) :
    deploymentHandler.apply q h (RuntimeObject.deployment (some d)) w =
      (Outcome.panicked Panic.nilDereference,
        World.mk (afterLookup h d w) (w.trace ++ [lookupEvent h d w]) w.log) := by
  have hg : (h.kubeClient.Get NamespaceDefault d.ObjectMeta.Name w.cluster).1 =
      (none, none) := hget
  simp only [deploymentHandler.apply, callGet, hg, lookupEvent, lookup, afterLookup,
    IsNotFound]
  rfl

/-- The delete path of `delete` in closed form. -/
theorem delete_found (q : String → String) (h : deploymentHandler σ) (d cur : Deployment)
    (w : World σ) (hget : lookup h d w = (some cur, none)) :
    deploymentHandler.delete q h (RuntimeObject.deployment (some d)) w =
      (match (h.kubeClient.Delete NamespaceDefault d.ObjectMeta.Name
          (DeleteOptions.mk none (some DeletionPropagation.Foreground))
          (afterLookup h d w)).1 with
        | some err =>
          (Outcome.returned ("delete deployment err: " ++ err.message ++ "\n"),
            Errorf ("delete deployment err: " ++ err.message ++ "\n")
              (callDelete h.kubeClient NamespaceDefault d.ObjectMeta.Name
                (DeleteOptions.mk none (some DeletionPropagation.Foreground))
                (World.mk (afterLookup h d w) (w.trace ++ [lookupEvent h d w]) w.log)).2)
        | none =>
          (Outcome.returned ("delete deployment " ++ q d.ObjectMeta.Name ++ "\n"),
            Infof ("delete deployment " ++ q d.ObjectMeta.Name ++ "\n")
              (callDelete h.kubeClient NamespaceDefault d.ObjectMeta.Name
                (DeleteOptions.mk none (some DeletionPropagation.Foreground))
                (World.mk (afterLookup h d w) (w.trace ++ [lookupEvent h d w]) w.log)).2)) := by
  have hg : (h.kubeClient.Get NamespaceDefault d.ObjectMeta.Name w.cluster).1 =
      (some cur, none) := hget
  simp only [deploymentHandler.delete, callGet, hg, lookupEvent, lookup, afterLookup,
    callDelete]

/-- The already-absent path of `delete` in closed form. -/
theorem delete_notFound (q : String → String) (h : deploymentHandler σ) (d : Deployment)
    (w : World σ) (hnf : IsNotFound (lookup h d w).2 = true) :
    deploymentHandler.delete q h (RuntimeObject.deployment (some d)) w =
      (Outcome.returned ("deployment does not exist: " ++ d.ObjectMeta.Name ++ "\n"),
        Infof ("deployment does not exist: " ++ d.ObjectMeta.Name ++ "\n")
          (World.mk (afterLookup h d w) (w.trace ++ [lookupEvent h d w]) w.log)) := by
  unfold lookup at hnf
  cases hy : (h.kubeClient.Get NamespaceDefault d.ObjectMeta.Name w.cluster).1.2 with
  | none => rw [hy] at hnf; simp [IsNotFound] at hnf
  | some e =>
    rw [hy] at hnf
    simp only [deploymentHandler.delete, callGet, hy, hnf, if_true, lookupEvent, lookup,
      afterLookup]
    cases (h.kubeClient.Get NamespaceDefault d.ObjectMeta.Name w.cluster).1.1 <;>
      simp [hnf]

/-- The lookup-failure path of `delete` in closed form. -/
theorem delete_lookupErr (q : String → String) (h : deploymentHandler σ) (d : Deployment)
    (w : World σ) (e : GoError) (he : (lookup h d w).2 = some e)
    (hnf : IsNotFound (some e) = false) :
    deploymentHandler.delete q h (RuntimeObject.deployment (some d)) w =
      (Outcome.returned ("get deployment err: " ++ e.message ++ "\n"),
        Errorf ("get deployment err: " ++ e.message ++ "\n")
          (World.mk (afterLookup h d w) (w.trace ++ [lookupEvent h d w]) w.log)) := by
  unfold lookup at he
  simp only [deploymentHandler.delete, callGet, he, hnf, lookupEvent, lookup, afterLookup]
  cases (h.kubeClient.Get NamespaceDefault d.ObjectMeta.Name w.cluster).1.1 <;>
    simp [hnf]

/-- A lookup that returns neither an object nor an error makes `delete` panic. -/
theorem delete_nothing (q : String → String) (h : deploymentHandler σ) (d : Deployment)
    (w : World σ) (hget : lookup h d w = (none, none)) :
    deploymentHandler.delete q h (RuntimeObject.deployment (some d)) w =
      (Outcome.panicked Panic.nilDereference,
        World.mk (afterLookup h d w) (w.trace ++ [lookupEvent h d w]) w.log) := by
  have hg : (h.kubeClient.Get NamespaceDefault d.ObjectMeta.Name w.cluster).1 =
      (none, none) := hget
  simp only [deploymentHandler.delete, callGet, hg, lookupEvent, lookup, afterLookup,
    IsNotFound]
  rfl

/-- The update path of `apply`, split by the result of the last update attempt. -/
theorem apply_found_cases (q : String → String) (h : deploymentHandler σ)
    (d cur : Deployment) (w : World σ) (hget : lookup h d w = (some cur, none)) :
    ∃ j : Nat,
      firstNonConflict (updErr h.kubeClient (applyOverrides cur d) (afterLookup h d w))
        DefaultRetry = j + 1 ∧
      ((∃ e : GoError,
          updErr h.kubeClient (applyOverrides cur d) (afterLookup h d w) j = some e ∧
          deploymentHandler.apply q h (RuntimeObject.deployment (some d)) w =
            (Outcome.returned ("update deployment err: " ++ e.message ++ "\n"),
              World.mk
                (updCluster h.kubeClient (applyOverrides cur d) (j + 1) (afterLookup h d w))
                (w.trace ++ lookupEvent h d w ::
                  updEvents h.kubeClient (applyOverrides cur d) (afterLookup h d w) (j + 1))
                (w.log ++
                  [LogEntry.mk Level.error
                    ("update deployment err: " ++ e.message ++ "\n")]))) ∨
        (updErr h.kubeClient (applyOverrides cur d) (afterLookup h d w) j = none ∧
          deploymentHandler.apply q h (RuntimeObject.deployment (some d)) w =
            (Outcome.returned ("update deployment " ++ q d.ObjectMeta.Name ++ "\n"),
              World.mk
                (updCluster h.kubeClient (applyOverrides cur d) (j + 1) (afterLookup h d w))
                (w.trace ++ lookupEvent h d w ::
                  updEvents h.kubeClient (applyOverrides cur d) (afterLookup h d w) (j + 1))
                (w.log ++
                  [LogEntry.mk Level.info
                    ("update deployment " ++ q d.ObjectMeta.Name ++ "\n")])))) := by
  have hp := firstNonConflict_pos
    (updErr h.kubeClient (applyOverrides cur d) (afterLookup h d w)) 4
  obtain ⟨j, hj⟩ : ∃ j, firstNonConflict
      (updErr h.kubeClient (applyOverrides cur d) (afterLookup h d w)) DefaultRetry = j + 1 :=
    ⟨_, (Nat.sub_add_cancel hp).symm⟩
  refine ⟨j, hj, ?_⟩
  rw [apply_found q h d cur w hget]
  simp only [hj, Nat.add_sub_cancel]
  cases he : updErr h.kubeClient (applyOverrides cur d) (afterLookup h d w) j with
  | none =>
    right
    simp [worldAfter, Infof]
  | some e =>
    left
    exact ⟨e, rfl, by simp [worldAfter, Errorf]⟩

theorem calls_append (a b : List Event) : calls (a ++ b) = calls a ++ calls b := by
  simp [calls]

theorem calls_cons (e : Event) (b : List Event) : calls (e :: b) = e.call :: calls b := rfl

theorem countUpdates_append (a b : List Event) :
    countUpdates (a ++ b) = countUpdates a + countUpdates b := by
  simp [countUpdates, calls]

theorem countUpdates_updEvents (c : DeploymentInterface σ) (obj : Deployment) (s : σ)
    (n : Nat) : countUpdates (updEvents c obj s n) = n := by
  rw [countUpdates, calls_updEvents]
  induction n with
  | zero => rfl
  | succ n ih => simp [List.replicate_succ, Call.isUpdate, ih]

theorem updEvents_succ_last (c : DeploymentInterface σ) (obj : Deployment) (s : σ)
    (n : Nat) :
    updEvents c obj s (n + 1) =
      updEvents c obj s n ++
        [Event.mk (Call.update NamespaceDefault obj) (updErr c obj s n)] := by
  simp [updEvents, List.range_succ]

/-- The trace of the update path: the lookup, then the updates. -/
theorem apply_found_trace (q : String → String) (h : deploymentHandler σ)
    (d cur : Deployment) (w : World σ) (hget : lookup h d w = (some cur, none)) :
    (deploymentHandler.apply q h (RuntimeObject.deployment (some d)) w).2.trace =
      w.trace ++ lookupEvent h d w ::
        updEvents h.kubeClient (applyOverrides cur d) (afterLookup h d w)
          (firstNonConflict (updErr h.kubeClient (applyOverrides cur d) (afterLookup h d w))
            DefaultRetry) := by
  obtain ⟨j, hj, hcase⟩ := apply_found_cases q h d cur w hget
  rw [hj]
  rcases hcase with ⟨e, _, heq⟩ | ⟨_, heq⟩ <;> rw [heq]

theorem lookupEvent_call (h : deploymentHandler σ) (d : Deployment) (w : World σ) :
    (lookupEvent h d w).call = Call.get NamespaceDefault d.ObjectMeta.Name := rfl

/-- On a descriptor, `apply` returns a status string unless the lookup returns neither
an object nor an error, or the Create call does. -/
theorem apply_returns (q : String → String) (h : deploymentHandler σ) (d : Deployment)
    (w : World σ) (hl : lookup h d w ≠ (none, none))
    (hc : IsNotFound (lookup h d w).2 = true →
      (h.kubeClient.Create NamespaceDefault d (afterLookup h d w)).1 ≠ (none, none)) :
    ∃ msg, (deploymentHandler.apply q h (RuntimeObject.deployment (some d)) w).1 =
      Outcome.returned msg := by
  rcases hlk : lookup h d w with ⟨x, y⟩
  cases y with
  | none =>
    cases x with
    | none => exact absurd hlk hl
    | some cur =>
      obtain ⟨j, _, hcase⟩ := apply_found_cases q h d cur w hlk
      rcases hcase with ⟨e, _, heq⟩ | ⟨_, heq⟩ <;> rw [heq] <;> exact ⟨_, rfl⟩
  | some e =>
    cases hnf : IsNotFound (some e) with
    | false =>
      rw [apply_lookupErr q h d w e (by rw [hlk]) hnf]
      exact ⟨_, rfl⟩
    | true =>
      have hnf2 : IsNotFound (lookup h d w).2 = true := by rw [hlk]; exact hnf
      rw [apply_notFound q h d w hnf2]
      have hne := hc hnf2
      rcases hcr : (h.kubeClient.Create NamespaceDefault d (afterLookup h d w)).1
        with ⟨_ | r, _ | e2⟩
      · exact absurd hcr hne
      · exact ⟨_, rfl⟩
      · exact ⟨_, rfl⟩
      · exact ⟨_, rfl⟩

/-- On a descriptor, `delete` returns a status string unless the lookup returns neither
an object nor an error. -/
theorem delete_returns (q : String → String) (h : deploymentHandler σ) (d : Deployment)
    (w : World σ) (hl : lookup h d w ≠ (none, none)) :
    ∃ msg, (deploymentHandler.delete q h (RuntimeObject.deployment (some d)) w).1 =
      Outcome.returned msg := by
  rcases hlk : lookup h d w with ⟨x, y⟩
  cases y with
  | none =>
    cases x with
    | none => exact absurd hlk hl
    | some cur =>
      rw [delete_found q h d cur w hlk]
      cases (h.kubeClient.Delete NamespaceDefault d.ObjectMeta.Name
        (DeleteOptions.mk none (some DeletionPropagation.Foreground))
        (afterLookup h d w)).1 <;> exact ⟨_, rfl⟩
  | some e =>
    cases hnf : IsNotFound (some e) with
    | false =>
      rw [delete_lookupErr q h d w e (by rw [hlk]) hnf]
      exact ⟨_, rfl⟩
    | true =>
      rw [delete_notFound q h d w (by rw [hlk]; exact hnf)]
      exact ⟨_, rfl⟩

/-- The client calls of the create path: the lookup, then one Create of the descriptor. -/
theorem apply_absent_create_calls (q : String → String) (h : deploymentHandler σ)
    (d : Deployment) (w : World σ) (hnf : IsNotFound (lookup h d w).2 = true) :
    calls (deploymentHandler.apply q h (RuntimeObject.deployment (some d)) w).2.trace =
      calls w.trace ++
        Call.get NamespaceDefault d.ObjectMeta.Name :: [Call.create NamespaceDefault d] := by
  rw [apply_notFound q h d w hnf]
  rcases hc : (h.kubeClient.Create NamespaceDefault d (afterLookup h d w)).1
    with ⟨_ | r, _ | e⟩ <;>
    simp [hc, calls, callCreate, Infof, Errorf, lookupEvent]

theorem getLast_snoc (a : List Event) (x : Event) : (a ++ [x]).getLast? = some x := by
  simp

theorem getLast_updates (a : List Event) (b : Event) (c : DeploymentInterface σ)
    (obj : Deployment) (s : σ) (j : Nat) :
    (a ++ b :: updEvents c obj s (j + 1)).getLast? =
      some (Event.mk (Call.update NamespaceDefault obj) (updErr c obj s j)) := by
  rw [updEvents_succ_last, ← List.cons_append, ← List.append_assoc]
  exact getLast_snoc _ _

/-- Every call of `apply` that returns logs exactly one entry, the returned string, at
the level of its outcome. -/
theorem apply_logs_once (q : String → String) (h : deploymentHandler σ)
    (rawData : RuntimeObject) (w : World σ) (msg : String)
    (hret : (deploymentHandler.apply q h rawData w).1 = Outcome.returned msg) :
    ∃ (last : Event) (kind : OutcomeKind),
      (deploymentHandler.apply q h rawData w).2.trace.getLast? = some last ∧
      outcomeKind false last = some kind ∧
      (deploymentHandler.apply q h rawData w).2.log =
        w.log ++ [LogEntry.mk (levelOf kind) msg] := by
  match rawData with
  | RuntimeObject.nil => cases hret
  | RuntimeObject.other _ => cases hret
  | RuntimeObject.deployment none => cases hret
  | RuntimeObject.deployment (some d) =>
    rcases hlk : lookup h d w with ⟨x, y⟩
    cases y with
    | none =>
      cases x with
      | none =>
        rw [apply_nothing q h d w hlk] at hret
        cases hret
      | some cur =>
        obtain ⟨j, _, hcase⟩ := apply_found_cases q h d cur w hlk
        rcases hcase with ⟨e, he, heq⟩ | ⟨he, heq⟩
        · rw [heq] at hret ⊢
          cases hret
          exact ⟨_, OutcomeKind.updateError, getLast_updates _ _ _ _ _ _,
            by rw [he]; rfl, rfl⟩
        · rw [heq] at hret ⊢
          cases hret
          exact ⟨_, OutcomeKind.updated, getLast_updates _ _ _ _ _ _,
            by rw [he]; rfl, rfl⟩
    | some e =>
      have hle : (lookupEvent h d w).err = some e := by
        simp [lookupEvent, hlk]
      cases hnf : IsNotFound (some e) with
      | false =>
        rw [apply_lookupErr q h d w e (by rw [hlk]) hnf] at hret ⊢
        cases hret
        refine ⟨lookupEvent h d w, OutcomeKind.lookupError, getLast_snoc _ _, ?_, rfl⟩
        simp [outcomeKind, hle, lookupEvent_call]
      | true =>
        rw [apply_notFound q h d w (by rw [hlk]; exact hnf)] at hret ⊢
        rcases hcr : (h.kubeClient.Create NamespaceDefault d (afterLookup h d w)).1
          with ⟨_ | r, _ | e2⟩
        · simp [hcr] at hret
        · simp only [hcr] at hret ⊢
          cases hret
          exact ⟨_, OutcomeKind.createError, getLast_snoc _ _,
            by simp [outcomeKind, hcr], rfl⟩
        · simp only [hcr] at hret ⊢
          cases hret
          exact ⟨_, OutcomeKind.created, getLast_snoc _ _,
            by simp [outcomeKind, hcr], rfl⟩
        · simp only [hcr] at hret ⊢
          cases hret
          exact ⟨_, OutcomeKind.createError, getLast_snoc _ _,
            by simp [outcomeKind, hcr], rfl⟩

/-- Every call of `delete` that returns logs exactly one entry, the returned string, at
the level of its outcome. -/
theorem delete_logs_once (q : String → String) (h : deploymentHandler σ)
    (rawData : RuntimeObject) (w : World σ) (msg : String)
    (hret : (deploymentHandler.delete q h rawData w).1 = Outcome.returned msg) :
    ∃ (last : Event) (kind : OutcomeKind),
      (deploymentHandler.delete q h rawData w).2.trace.getLast? = some last ∧
      outcomeKind true last = some kind ∧
      (deploymentHandler.delete q h rawData w).2.log =
        w.log ++ [LogEntry.mk (levelOf kind) msg] := by
  match rawData with
  | RuntimeObject.nil => cases hret
  | RuntimeObject.other _ => cases hret
  | RuntimeObject.deployment none => cases hret
  | RuntimeObject.deployment (some d) =>
    rcases hlk : lookup h d w with ⟨x, y⟩
    cases y with
    | none =>
      cases x with
      | none =>
        rw [delete_nothing q h d w hlk] at hret
        cases hret
      | some cur =>
        rw [delete_found q h d cur w hlk] at hret ⊢
        cases hdl : (h.kubeClient.Delete NamespaceDefault d.ObjectMeta.Name
          (DeleteOptions.mk none (some DeletionPropagation.Foreground))
          (afterLookup h d w)).1 with
        | none =>
          simp only [hdl] at hret ⊢
          cases hret
          exact ⟨_, OutcomeKind.deleted, getLast_snoc _ _,
            by simp [outcomeKind, hdl], rfl⟩
        | some e =>
          simp only [hdl] at hret ⊢
          cases hret
          exact ⟨_, OutcomeKind.deleteError, getLast_snoc _ _,
            by simp [outcomeKind, hdl], rfl⟩
    | some e =>
      have hle : (lookupEvent h d w).err = some e := by
        simp [lookupEvent, hlk]
      cases hnf : IsNotFound (some e) with
      | false =>
        rw [delete_lookupErr q h d w e (by rw [hlk]) hnf] at hret ⊢
        cases hret
        refine ⟨lookupEvent h d w, OutcomeKind.lookupError, getLast_snoc _ _, ?_, rfl⟩
        simp [outcomeKind, hle, lookupEvent_call, hnf]
      | true =>
        rw [delete_notFound q h d w (by rw [hlk]; exact hnf)] at hret ⊢
        cases hret
        refine ⟨lookupEvent h d w, OutcomeKind.alreadyAbsent, getLast_snoc _ _, ?_, rfl⟩
        simp [outcomeKind, hle, lookupEvent_call, hnf]

/-! ## The create path of `apply` -/

/-- C1, as stated, fails: the lookup reports not-found, the single Create call is
refused, and `apply` returns the error status of the create branch at error level, not
the success message. -/
theorem apply_absent_create_refused :
    IsNotFound (lookup scriptedHandler webDescriptor (start absentCreateRefused)).2 = true ∧
    (deploymentHandler.apply quotePlain scriptedHandler
        (RuntimeObject.deployment (some webDescriptor)) (start absentCreateRefused)).1 =
      Outcome.returned "create deployment err: forbidden\n" ∧
    (deploymentHandler.apply quotePlain scriptedHandler
        (RuntimeObject.deployment (some webDescriptor)) (start absentCreateRefused)).1 ≠
      Outcome.returned ("create deployment " ++ quotePlain "web" ++ "\n") ∧
    (deploymentHandler.apply quotePlain scriptedHandler
        (RuntimeObject.deployment (some webDescriptor)) (start absentCreateRefused)).2.log =
      [LogEntry.mk Level.error "create deployment err: forbidden\n"] := by
  decide

/-- C1, amended: when the lookup reports not-found, `apply` issues, after the lookup,
exactly one Create call carrying the descriptor as given and no Update or Delete call;
if that call returns an object and no error, `apply` returns
`create deployment "<name>"\n` with the quoted name of the returned object; if it
returns an error, `apply` returns `create deployment err: <msg>\n`. -/
theorem apply_absent_creates (q : String → String) (h : deploymentHandler σ)
    (d : Deployment) (w : World σ) (hnf : IsNotFound (lookup h d w).2 = true) :
    calls (deploymentHandler.apply q h (RuntimeObject.deployment (some d)) w).2.trace =
        calls w.trace ++
          [Call.get NamespaceDefault d.ObjectMeta.Name, Call.create NamespaceDefault d] ∧
    (deploymentHandler.apply q h (RuntimeObject.deployment (some d)) w).2.cluster =
        (h.kubeClient.Create NamespaceDefault d (afterLookup h d w)).2 ∧
    (∀ result : Deployment,
        (h.kubeClient.Create NamespaceDefault d (afterLookup h d w)).1 = (some result, none) →
        (deploymentHandler.apply q h (RuntimeObject.deployment (some d)) w).1 =
          Outcome.returned ("create deployment " ++ q result.ObjectMeta.Name ++ "\n")) ∧
    (∀ (result : Option Deployment) (e : GoError),
        (h.kubeClient.Create NamespaceDefault d (afterLookup h d w)).1 = (result, some e) →
        (deploymentHandler.apply q h (RuntimeObject.deployment (some d)) w).1 =
          Outcome.returned ("create deployment err: " ++ e.message ++ "\n")) := by
  rw [apply_notFound q h d w hnf]
  refine ⟨?_, ?_, ?_, ?_⟩
  · rcases hc : (h.kubeClient.Create NamespaceDefault d (afterLookup h d w)).1
      with ⟨_ | r, _ | e⟩ <;>
      simp [hc, calls, callCreate, Infof, Errorf, lookupEvent]
  · rcases hc : (h.kubeClient.Create NamespaceDefault d (afterLookup h d w)).1
      with ⟨_ | r, _ | e⟩ <;>
      simp [hc, callCreate, Infof, Errorf]
  · intro result hc
    simp [hc]
  · intro result e hc
    simp [hc]

/-- Witness of `apply_absent_creates`: the scripted client in which the object is absent
and the create request succeeds. -/
theorem apply_absent_creates_witness :
    IsNotFound (lookup scriptedHandler webDescriptor (start absentCreateOk)).2 = true ∧
    calls (deploymentHandler.apply quotePlain scriptedHandler
        (RuntimeObject.deployment (some webDescriptor)) (start absentCreateOk)).2.trace =
      [Call.get NamespaceDefault "web", Call.create NamespaceDefault webDescriptor] ∧
    (deploymentHandler.apply quotePlain scriptedHandler
        (RuntimeObject.deployment (some webDescriptor)) (start absentCreateOk)).1 =
      Outcome.returned "create deployment \"web\"\n" :=
  ⟨by decide,
    (apply_absent_creates quotePlain scriptedHandler webDescriptor (start absentCreateOk)
      (by decide)).1,
    (apply_absent_creates quotePlain scriptedHandler webDescriptor (start absentCreateOk)
      (by decide)).2.2.1 webDescriptor rfl⟩

/-! ## The paths of `delete` -/

/-- C4, as stated, fails: the object exists, the single Delete call is refused, and
`delete` returns the error status of the delete branch at error level, not the success
message. -/
theorem delete_present_refused :
    lookup scriptedHandler webDescriptor (start presentDeleteRefused) =
      (some webStored, none) ∧
    (deploymentHandler.delete quotePlain scriptedHandler
        (RuntimeObject.deployment (some webDescriptor)) (start presentDeleteRefused)).1 =
      Outcome.returned "delete deployment err: forbidden\n" ∧
    (deploymentHandler.delete quotePlain scriptedHandler
        (RuntimeObject.deployment (some webDescriptor)) (start presentDeleteRefused)).1 ≠
      Outcome.returned ("delete deployment " ++ quotePlain "web" ++ "\n") ∧
    (deploymentHandler.delete quotePlain scriptedHandler
        (RuntimeObject.deployment (some webDescriptor)) (start presentDeleteRefused)).2.log =
      [LogEntry.mk Level.error "delete deployment err: forbidden\n"] := by
  decide

/-- C4, amended: when the lookup returns an object and no error, `delete` issues, after
the lookup, exactly one Delete call, for the descriptor's name and with propagation
policy Foreground, and no Create or Update call; if that call returns no error,
`delete` returns `delete deployment "<name>"\n`; if it returns an error, `delete`
returns `delete deployment err: <msg>\n`. -/
theorem delete_present_deletes (q : String → String) (h : deploymentHandler σ)
    (d cur : Deployment) (w : World σ) (hget : lookup h d w = (some cur, none)) :
    calls (deploymentHandler.delete q h (RuntimeObject.deployment (some d)) w).2.trace =
        calls w.trace ++
          [Call.get NamespaceDefault d.ObjectMeta.Name,
            Call.delete NamespaceDefault d.ObjectMeta.Name
              (DeleteOptions.mk none (some DeletionPropagation.Foreground))] ∧
    ((h.kubeClient.Delete NamespaceDefault d.ObjectMeta.Name
          (DeleteOptions.mk none (some DeletionPropagation.Foreground))
          (afterLookup h d w)).1 = none →
        (deploymentHandler.delete q h (RuntimeObject.deployment (some d)) w).1 =
          Outcome.returned ("delete deployment " ++ q d.ObjectMeta.Name ++ "\n")) ∧
    (∀ e : GoError,
        (h.kubeClient.Delete NamespaceDefault d.ObjectMeta.Name
          (DeleteOptions.mk none (some DeletionPropagation.Foreground))
          (afterLookup h d w)).1 = some e →
        (deploymentHandler.delete q h (RuntimeObject.deployment (some d)) w).1 =
          Outcome.returned ("delete deployment err: " ++ e.message ++ "\n")) := by
  rw [delete_found q h d cur w hget]
  refine ⟨?_, ?_, ?_⟩
  · cases hc : (h.kubeClient.Delete NamespaceDefault d.ObjectMeta.Name
        (DeleteOptions.mk none (some DeletionPropagation.Foreground))
        (afterLookup h d w)).1 <;>
      simp [calls, callDelete, Infof, Errorf, lookupEvent]
  · intro hc
    simp [hc]
  · intro e hc
    simp [hc]

/-- Witness of `delete_present_deletes`: the scripted client in which the object exists
and the delete request succeeds. -/
theorem delete_present_deletes_witness :
    lookup scriptedHandler webDescriptor (start presentDeleteOk) = (some webStored, none) ∧
    calls (deploymentHandler.delete quotePlain scriptedHandler
        (RuntimeObject.deployment (some webDescriptor)) (start presentDeleteOk)).2.trace =
      [Call.get NamespaceDefault "web",
        Call.delete NamespaceDefault "web"
          (DeleteOptions.mk none (some DeletionPropagation.Foreground))] ∧
    (deploymentHandler.delete quotePlain scriptedHandler
        (RuntimeObject.deployment (some webDescriptor)) (start presentDeleteOk)).1 =
      Outcome.returned "delete deployment \"web\"\n" :=
  ⟨by decide,
    (delete_present_deletes quotePlain scriptedHandler webDescriptor webStored
      (start presentDeleteOk) (by decide)).1,
    (delete_present_deletes quotePlain scriptedHandler webDescriptor webStored
      (start presentDeleteOk) (by decide)).2.1 rfl⟩

/-- C5: when the lookup reports not-found, `delete` makes no client call besides the
lookup (no Delete, Create or Update), so the cluster is in the state the lookup left
it in (the initial state when the lookup is read-only), and it returns
`deployment does not exist: <name>\n`, logged at info level, not an error status. -/
theorem delete_absent_noop (q : String → String) (h : deploymentHandler σ)
    (d : Deployment) (w : World σ) (hnf : IsNotFound (lookup h d w).2 = true) :
    (deploymentHandler.delete q h (RuntimeObject.deployment (some d)) w).1 =
        Outcome.returned ("deployment does not exist: " ++ d.ObjectMeta.Name ++ "\n") ∧
    calls (deploymentHandler.delete q h (RuntimeObject.deployment (some d)) w).2.trace =
        calls w.trace ++ [Call.get NamespaceDefault d.ObjectMeta.Name] ∧
    (deploymentHandler.delete q h (RuntimeObject.deployment (some d)) w).2.cluster =
        afterLookup h d w ∧
    (afterLookup h d w = w.cluster →
      (deploymentHandler.delete q h (RuntimeObject.deployment (some d)) w).2.cluster =
        w.cluster) ∧
    (deploymentHandler.delete q h (RuntimeObject.deployment (some d)) w).2.log =
        w.log ++ [LogEntry.mk Level.info
          ("deployment does not exist: " ++ d.ObjectMeta.Name ++ "\n")] := by
  rw [delete_notFound q h d w hnf]
  refine ⟨rfl, ?_, rfl, fun hro => hro, rfl⟩
  simp [calls, Infof, lookupEvent]

/-- Witness of `delete_absent_noop`: the scripted client in which the object is
absent. -/
theorem delete_absent_noop_witness :
    IsNotFound (lookup scriptedHandler webDescriptor (start absentCreateOk)).2 = true ∧
    (deploymentHandler.delete quotePlain scriptedHandler
        (RuntimeObject.deployment (some webDescriptor)) (start absentCreateOk)).1 =
      Outcome.returned "deployment does not exist: web\n" ∧
    (deploymentHandler.delete quotePlain scriptedHandler
        (RuntimeObject.deployment (some webDescriptor)) (start absentCreateOk)).2.cluster =
      absentCreateOk :=
  ⟨by decide,
    (delete_absent_noop quotePlain scriptedHandler webDescriptor (start absentCreateOk)
      (by decide)).1,
    (delete_absent_noop quotePlain scriptedHandler webDescriptor (start absentCreateOk)
      (by decide)).2.2.2.1 rfl⟩

/-- C6: when the lookup returns an error that is not a not-found error, both `apply`
and `delete` return `get deployment err: <msg>\n` with the message of that error, and
the lookup is the only client call they make (no Create, Update or Delete). -/
theorem lookup_error_short_circuits (q : String → String) (h : deploymentHandler σ)
    (d : Deployment) (w : World σ) (e : GoError) (he : (lookup h d w).2 = some e)
    (hnf : IsNotFound (some e) = false) :
    ((deploymentHandler.apply q h (RuntimeObject.deployment (some d)) w).1 =
        Outcome.returned ("get deployment err: " ++ e.message ++ "\n") ∧
      calls (deploymentHandler.apply q h (RuntimeObject.deployment (some d)) w).2.trace =
        calls w.trace ++ [Call.get NamespaceDefault d.ObjectMeta.Name] ∧
      (deploymentHandler.apply q h (RuntimeObject.deployment (some d)) w).2.cluster =
        afterLookup h d w) ∧
    ((deploymentHandler.delete q h (RuntimeObject.deployment (some d)) w).1 =
        Outcome.returned ("get deployment err: " ++ e.message ++ "\n") ∧
      calls (deploymentHandler.delete q h (RuntimeObject.deployment (some d)) w).2.trace =
        calls w.trace ++ [Call.get NamespaceDefault d.ObjectMeta.Name] ∧
      (deploymentHandler.delete q h (RuntimeObject.deployment (some d)) w).2.cluster =
        afterLookup h d w) := by
  rw [apply_lookupErr q h d w e he hnf, delete_lookupErr q h d w e he hnf]
  refine ⟨⟨rfl, ?_, rfl⟩, ⟨rfl, ?_, rfl⟩⟩ <;> simp [calls, Errorf, lookupEvent]

/-- Witness of `lookup_error_short_circuits`: the scripted client whose lookup is
refused. -/
theorem lookup_error_short_circuits_witness :
    (lookup scriptedHandler webDescriptor (start lookupRefused)).2 = some errForbidden ∧
    IsNotFound (some errForbidden) = false ∧
    (deploymentHandler.apply quotePlain scriptedHandler
        (RuntimeObject.deployment (some webDescriptor)) (start lookupRefused)).1 =
      Outcome.returned "get deployment err: forbidden\n" ∧
    (deploymentHandler.delete quotePlain scriptedHandler
        (RuntimeObject.deployment (some webDescriptor)) (start lookupRefused)).1 =
      Outcome.returned "get deployment err: forbidden\n" :=
  ⟨by decide, by decide,
    (lookup_error_short_circuits quotePlain scriptedHandler webDescriptor
      (start lookupRefused) errForbidden (by decide) (by decide)).1.1,
    (lookup_error_short_circuits quotePlain scriptedHandler webDescriptor
      (start lookupRefused) errForbidden (by decide) (by decide)).2.1⟩

/-! ## The update path of `apply` -/

/-- C2: when the lookup returns an object `cur` and no error, the client calls of
`apply` are the lookup followed by Update calls only (at least one, at most five, never
a Create), and the object `u` every Update submits is `cur` with its labels, annotations
and spec replaced by the descriptor's, every other field being that of `cur`. -/
theorem apply_present_updates (q : String → String) (h : deploymentHandler σ)
    (d cur : Deployment) (w : World σ) (hget : lookup h d w = (some cur, none)) :
    ∃ (m : Nat) (u : Deployment),
      1 ≤ m ∧ m ≤ 5 ∧
      calls (deploymentHandler.apply q h (RuntimeObject.deployment (some d)) w).2.trace =
        calls w.trace ++ Call.get NamespaceDefault d.ObjectMeta.Name ::
          List.replicate m (Call.update NamespaceDefault u) ∧
      (∀ c ∈ List.replicate m (Call.update NamespaceDefault u), c.isCreate = false) ∧
      u.ObjectMeta.Labels = d.ObjectMeta.Labels ∧
      u.ObjectMeta.Annotations = d.ObjectMeta.Annotations ∧
      u.Spec = d.Spec ∧
      u.TypeMeta = cur.TypeMeta ∧
      u.Status = cur.Status ∧
      u.ObjectMeta.Name = cur.ObjectMeta.Name ∧
      u.ObjectMeta.GenerateName = cur.ObjectMeta.GenerateName ∧
      u.ObjectMeta.Namespace = cur.ObjectMeta.Namespace ∧
      u.ObjectMeta.SelfLink = cur.ObjectMeta.SelfLink ∧
      u.ObjectMeta.UID = cur.ObjectMeta.UID ∧
      u.ObjectMeta.ResourceVersion = cur.ObjectMeta.ResourceVersion ∧
      u.ObjectMeta.Generation = cur.ObjectMeta.Generation ∧
      u.ObjectMeta.OwnerReferences = cur.ObjectMeta.OwnerReferences ∧
      u.ObjectMeta.Finalizers = cur.ObjectMeta.Finalizers ∧
      u.ObjectMeta.ClusterName = cur.ObjectMeta.ClusterName := by
  refine ⟨firstNonConflict (updErr h.kubeClient (applyOverrides cur d) (afterLookup h d w))
    DefaultRetry, applyOverrides cur d, firstNonConflict_pos _ 4, firstNonConflict_le _ 5,
    ?_, ?_, rfl, rfl, rfl, rfl, rfl, rfl, rfl, rfl, rfl, rfl, rfl, rfl, rfl, rfl, rfl⟩
  · rw [apply_found_trace q h d cur w hget, calls_append, calls_cons, calls_updEvents,
      lookupEvent_call]
  · intro c hc
    rw [List.eq_of_mem_replicate hc]
    rfl

/-- Witness of `apply_present_updates`: the scripted client in which the object exists
and the updates conflict twice before succeeding. -/
theorem apply_present_updates_witness :
    lookup scriptedHandler webDescriptor (start presentTwoConflicts) =
      (some webStored, none) ∧
    ∃ (m : Nat) (u : Deployment),
      1 ≤ m ∧ m ≤ 5 ∧
      calls (deploymentHandler.apply quotePlain scriptedHandler
          (RuntimeObject.deployment (some webDescriptor))
          (start presentTwoConflicts)).2.trace =
        calls (start presentTwoConflicts).trace ++ Call.get NamespaceDefault "web" ::
          List.replicate m (Call.update NamespaceDefault u) ∧
      u.ObjectMeta.Labels = some [("app", "web")] ∧
      u.ObjectMeta.ResourceVersion = "41" :=
  ⟨by decide,
    (apply_present_updates quotePlain scriptedHandler webDescriptor webStored
      (start presentTwoConflicts) (by decide)).elim fun m hm =>
        hm.elim fun u hu =>
          ⟨m, u, hu.1, hu.2.1, hu.2.2.1, hu.2.2.2.2.1,
            hu.2.2.2.2.2.2.2.2.2.2.2.2.2.2.1⟩⟩

/-- C3: in the update path of `apply`, with `res k` the error returned by Update call
`k + 1`: if all five attempts of the budget return a conflict, `apply` has issued five
Update calls and returns `update deployment err: <msg>\n` with the message of the last
conflict; if attempt `n + 1` (within the budget) succeeds after `n` conflicts, `apply`
has issued `n + 1` Update calls and returns `update deployment "<name>"\n`. -/
theorem apply_retries_conflicts (q : String → String) (h : deploymentHandler σ)
    (d cur : Deployment) (w : World σ) (hget : lookup h d w = (some cur, none)) :
    ((∀ k, k < DefaultRetry →
        IsConflict (updErr h.kubeClient (applyOverrides cur d) (afterLookup h d w) k) = true) →
      ∃ e : GoError,
        updErr h.kubeClient (applyOverrides cur d) (afterLookup h d w) (DefaultRetry - 1) =
          some e ∧
        IsConflict (some e) = true ∧
        (deploymentHandler.apply q h (RuntimeObject.deployment (some d)) w).1 =
          Outcome.returned ("update deployment err: " ++ e.message ++ "\n") ∧
        countUpdates (deploymentHandler.apply q h (RuntimeObject.deployment (some d)) w).2.trace =
          countUpdates w.trace + 5) ∧
    (∀ n, n < DefaultRetry →
      (∀ k, k < n →
        IsConflict (updErr h.kubeClient (applyOverrides cur d) (afterLookup h d w) k) = true) →
      updErr h.kubeClient (applyOverrides cur d) (afterLookup h d w) n = none →
      (deploymentHandler.apply q h (RuntimeObject.deployment (some d)) w).1 =
          Outcome.returned ("update deployment " ++ q d.ObjectMeta.Name ++ "\n") ∧
        countUpdates (deploymentHandler.apply q h (RuntimeObject.deployment (some d)) w).2.trace =
          countUpdates w.trace + (n + 1)) := by
  have hcount : ∀ m, countUpdates (w.trace ++ lookupEvent h d w ::
      updEvents h.kubeClient (applyOverrides cur d) (afterLookup h d w) m) =
      countUpdates w.trace + m := by
    intro m
    rw [countUpdates_append, ← List.singleton_append, countUpdates_append,
      countUpdates_updEvents]
    simp [countUpdates, calls, lookupEvent, Call.isUpdate]
  obtain ⟨j, hj, hcase⟩ := apply_found_cases q h d cur w hget
  constructor
  · intro hall
    have hm := firstNonConflict_all _ DefaultRetry hall
    have hj4 : j = 4 := by
      have : j + 1 = DefaultRetry := by rw [← hj, hm]
      simp only [DefaultRetry] at this
      omega
    subst hj4
    have h4 := hall 4 (by decide)
    rcases hcase with ⟨e, he, heq⟩ | ⟨hnone, _⟩
    · refine ⟨e, he, ?_, ?_, ?_⟩
      · rw [← he]; exact h4
      · rw [heq]
      · rw [heq]; exact hcount 5
    · rw [hnone] at h4
      simp [IsConflict] at h4
  · intro n hn hpre hat
    have hm := firstNonConflict_at _ DefaultRetry n hn hpre (by rw [hat]; rfl)
    have hjn : j = n := by
      have : j + 1 = n + 1 := by rw [← hj, hm]
      omega
    subst hjn
    rcases hcase with ⟨e, he, _⟩ | ⟨_, heq⟩
    · rw [hat] at he
      cases he
    · rw [heq]
      exact ⟨rfl, hcount (j + 1)⟩

/-- Witness of `apply_retries_conflicts`: one scripted client whose updates always
conflict, and one whose third update succeeds after two conflicts. -/
theorem apply_retries_conflicts_witness :
    (lookup scriptedHandler webDescriptor (start presentAlwaysConflict) =
        (some webStored, none) ∧
      (∀ k, k < DefaultRetry →
        IsConflict (updErr scriptedHandler.kubeClient
          (applyOverrides webStored webDescriptor)
          (afterLookup scriptedHandler webDescriptor (start presentAlwaysConflict)) k) =
            true) ∧
      ∃ e : GoError,
        e = errConflict ∧
        (deploymentHandler.apply quotePlain scriptedHandler
            (RuntimeObject.deployment (some webDescriptor))
            (start presentAlwaysConflict)).1 =
          Outcome.returned ("update deployment err: " ++ e.message ++ "\n")) ∧
    (lookup scriptedHandler webDescriptor (start presentTwoConflicts) =
        (some webStored, none) ∧
      (deploymentHandler.apply quotePlain scriptedHandler
          (RuntimeObject.deployment (some webDescriptor))
          (start presentTwoConflicts)).1 =
        Outcome.returned "update deployment \"web\"\n" ∧
      countUpdates (deploymentHandler.apply quotePlain scriptedHandler
          (RuntimeObject.deployment (some webDescriptor))
          (start presentTwoConflicts)).2.trace = 3) :=
  ⟨⟨by decide, by decide,
      ((apply_retries_conflicts quotePlain scriptedHandler webDescriptor webStored
        (start presentAlwaysConflict) (by decide)).1 (by decide)).elim fun e he =>
          ⟨e, Option.some.inj (he.1.symm.trans (by decide)), he.2.2.1⟩⟩,
    ⟨by decide,
      ((apply_retries_conflicts quotePlain scriptedHandler webDescriptor webStored
        (start presentTwoConflicts) (by decide)).2 2 (by decide) (by decide) (by decide)).1,
      ((apply_retries_conflicts quotePlain scriptedHandler webDescriptor webStored
        (start presentTwoConflicts) (by decide)).2 2 (by decide) (by decide)
          (by decide)).2⟩⟩

/-- C9: in the update path of `apply`, with `res k` the error returned by Update call
`k + 1`, the number of Update calls `apply` issues is the position of the first result
that is not a conflict (a success or another error), capped at five, and the trace is
the lookup followed by exactly these calls; in particular an Update error that is not a
conflict on the first attempt gives exactly one Update call and the status
`update deployment err: <msg>\n`. -/
theorem apply_retries_only_conflicts (q : String → String) (h : deploymentHandler σ)
    (d cur : Deployment) (w : World σ) (hget : lookup h d w = (some cur, none)) :
    countUpdates (deploymentHandler.apply q h (RuntimeObject.deployment (some d)) w).2.trace =
        countUpdates w.trace +
          firstNonConflict
            (updErr h.kubeClient (applyOverrides cur d) (afterLookup h d w)) 5 ∧
    (deploymentHandler.apply q h (RuntimeObject.deployment (some d)) w).2.trace =
        w.trace ++ lookupEvent h d w ::
          updEvents h.kubeClient (applyOverrides cur d) (afterLookup h d w)
            (firstNonConflict
              (updErr h.kubeClient (applyOverrides cur d) (afterLookup h d w)) 5) ∧
    (∀ e : GoError,
      updErr h.kubeClient (applyOverrides cur d) (afterLookup h d w) 0 = some e →
      IsConflict (some e) = false →
      countUpdates (deploymentHandler.apply q h (RuntimeObject.deployment (some d)) w).2.trace =
          countUpdates w.trace + 1 ∧
        (deploymentHandler.apply q h (RuntimeObject.deployment (some d)) w).1 =
          Outcome.returned ("update deployment err: " ++ e.message ++ "\n")) := by
  have htr := apply_found_trace q h d cur w hget
  have hcount : countUpdates
      (deploymentHandler.apply q h (RuntimeObject.deployment (some d)) w).2.trace =
      countUpdates w.trace + firstNonConflict
        (updErr h.kubeClient (applyOverrides cur d) (afterLookup h d w)) 5 := by
    rw [htr, countUpdates_append, ← List.singleton_append, countUpdates_append,
      countUpdates_updEvents]
    simp [countUpdates, calls, lookupEvent, Call.isUpdate, DefaultRetry]
  refine ⟨hcount, htr, ?_⟩
  intro e he hnc
  have hm := firstNonConflict_at
    (updErr h.kubeClient (applyOverrides cur d) (afterLookup h d w)) 5 0 (by decide)
    (fun k hk => absurd hk (Nat.not_lt_zero k)) (by rw [he]; exact hnc)
  refine ⟨by rw [hcount, hm], ?_⟩
  obtain ⟨j, hj, hcase⟩ := apply_found_cases q h d cur w hget
  have hj0 : j = 0 := by
    have : j + 1 = 0 + 1 := by rw [← hj]; exact hm
    omega
  subst hj0
  rcases hcase with ⟨e2, he2, heq⟩ | ⟨hnone, _⟩
  · rw [he] at he2
    cases he2
    rw [heq]
  · rw [he] at hnone
    cases hnone

/-- Witness of `apply_retries_only_conflicts`: the scripted client whose first update is
refused with an error that is not a conflict. -/
theorem apply_retries_only_conflicts_witness :
    lookup scriptedHandler webDescriptor (start presentUpdateRefused) =
      (some webStored, none) ∧
    countUpdates (deploymentHandler.apply quotePlain scriptedHandler
        (RuntimeObject.deployment (some webDescriptor))
        (start presentUpdateRefused)).2.trace = 0 + 1 ∧
    (deploymentHandler.apply quotePlain scriptedHandler
        (RuntimeObject.deployment (some webDescriptor)) (start presentUpdateRefused)).1 =
      Outcome.returned "update deployment err: forbidden\n" :=
  ⟨by decide,
    ((apply_retries_only_conflicts quotePlain scriptedHandler webDescriptor webStored
      (start presentUpdateRefused) (by decide)).2.2 errForbidden (by decide)
        (by decide)).1,
    ((apply_retries_only_conflicts quotePlain scriptedHandler webDescriptor webStored
      (start presentUpdateRefused) (by decide)).2.2 errForbidden (by decide)
        (by decide)).2⟩

/-- C10: on every descriptor `apply` issues exactly one Get call: its client calls are
the lookup followed by calls none of which is a Get; and when the lookup returns an
object `cur` and no error, these are Update calls (one per attempt) that all submit the
same object, `cur` as fetched (with its resource version) carrying the descriptor's
labels, annotations and spec. -/
theorem apply_single_lookup (q : String → String) (h : deploymentHandler σ)
    (d : Deployment) (w : World σ) :
    ∃ rest : List Call,
      calls (deploymentHandler.apply q h (RuntimeObject.deployment (some d)) w).2.trace =
        calls w.trace ++ Call.get NamespaceDefault d.ObjectMeta.Name :: rest ∧
      (∀ c ∈ rest, c.isGet = false) ∧
      (∀ cur : Deployment, lookup h d w = (some cur, none) →
        ∃ (m : Nat) (u : Deployment),
          1 ≤ m ∧
          rest = List.replicate m (Call.update NamespaceDefault u) ∧
          u = applyOverrides cur d ∧
          u.ObjectMeta.ResourceVersion = cur.ObjectMeta.ResourceVersion ∧
          u.ObjectMeta.Name = cur.ObjectMeta.Name ∧
          u.ObjectMeta.Labels = d.ObjectMeta.Labels ∧
          u.ObjectMeta.Annotations = d.ObjectMeta.Annotations ∧
          u.Spec = d.Spec ∧
          u.Status = cur.Status) := by
  rcases hlk : lookup h d w with ⟨x, y⟩
  cases y with
  | none =>
    cases x with
    | none =>
      refine ⟨[], ?_, by simp, fun cur hcur => by cases hcur⟩
      rw [apply_nothing q h d w hlk]
      simp [calls, lookupEvent]
    | some cur =>
      refine ⟨List.replicate (firstNonConflict
        (updErr h.kubeClient (applyOverrides cur d) (afterLookup h d w)) DefaultRetry)
        (Call.update NamespaceDefault (applyOverrides cur d)), ?_, ?_, ?_⟩
      · rw [apply_found_trace q h d cur w hlk, calls_append, calls_cons, calls_updEvents,
          lookupEvent_call]
      · intro c hc
        rw [List.eq_of_mem_replicate hc]
        rfl
      · intro cur2 hcur
        cases hcur
        exact ⟨_, _, firstNonConflict_pos _ 4, rfl, rfl, rfl, rfl, rfl, rfl, rfl, rfl⟩
  | some e =>
    cases hnf : IsNotFound (some e) with
    | false =>
      refine ⟨[], ?_, by simp, fun cur hcur => by cases hcur⟩
      rw [apply_lookupErr q h d w e (by rw [hlk]) hnf]
      simp [calls, Errorf, lookupEvent]
    | true =>
      refine ⟨[Call.create NamespaceDefault d], ?_, ?_, fun cur hcur => by cases hcur⟩
      · exact (apply_absent_create_calls q h d w (by rw [hlk]; exact hnf))
      · intro c hc
        rw [List.mem_singleton.mp hc]
        rfl

/-- Witness of `apply_single_lookup`: in the scripted run with two conflicts the three
Update calls submit one and the same object, with the stored resource version. -/
theorem apply_single_lookup_witness :
    ∃ rest : List Call,
      calls (deploymentHandler.apply quotePlain scriptedHandler
          (RuntimeObject.deployment (some webDescriptor))
          (start presentTwoConflicts)).2.trace =
        calls (start presentTwoConflicts).trace ++ Call.get NamespaceDefault "web" :: rest ∧
      ∃ (m : Nat) (u : Deployment),
        1 ≤ m ∧ rest = List.replicate m (Call.update NamespaceDefault u) ∧
        u.ObjectMeta.ResourceVersion = "41" :=
  (apply_single_lookup quotePlain scriptedHandler webDescriptor
    (start presentTwoConflicts)).elim fun rest hr =>
      ⟨rest, hr.1, (hr.2.2 webStored (by decide)).elim fun m hm =>
        hm.elim fun u hu => ⟨m, u, hu.1, hu.2.1, hu.2.2.2.1⟩⟩

/-! ## Totality and logging -/

/-- C7, as stated, fails: `apply` and `delete` panic on an object that is not a
Deployment (the type assertion) and on a nil Deployment pointer; they panic when the
lookup returns neither an object nor an error; and `apply` panics when the Create call
returns neither an object nor an error.  None of these calls returns a status string. -/
theorem handler_panics :
    (deploymentHandler.apply quotePlain scriptedHandler (RuntimeObject.other "Service")
        (start absentCreateOk)).1 = Outcome.panicked Panic.typeAssertion ∧
    (deploymentHandler.delete quotePlain scriptedHandler (RuntimeObject.other "Service")
        (start absentCreateOk)).1 = Outcome.panicked Panic.typeAssertion ∧
    (¬ ∃ msg, (deploymentHandler.apply quotePlain scriptedHandler
        (RuntimeObject.other "Service") (start absentCreateOk)).1 = Outcome.returned msg) ∧
    (deploymentHandler.apply quotePlain scriptedHandler RuntimeObject.nil
        (start absentCreateOk)).1 = Outcome.panicked Panic.typeAssertion ∧
    (deploymentHandler.apply quotePlain scriptedHandler (RuntimeObject.deployment none)
        (start absentCreateOk)).1 = Outcome.panicked Panic.nilDereference ∧
    (deploymentHandler.apply quotePlain scriptedHandler
        (RuntimeObject.deployment (some webDescriptor)) (start lookupNothing)).1 =
      Outcome.panicked Panic.nilDereference ∧
    (deploymentHandler.delete quotePlain scriptedHandler
        (RuntimeObject.deployment (some webDescriptor)) (start lookupNothing)).1 =
      Outcome.panicked Panic.nilDereference ∧
    (deploymentHandler.apply quotePlain scriptedHandler
        (RuntimeObject.deployment (some webDescriptor)) (start absentCreateNothing)).1 =
      Outcome.panicked Panic.nilDereference := by
  refine ⟨by decide, by decide, ?_, by decide, by decide, by decide, by decide, by decide⟩
  rintro ⟨msg, hmsg⟩
  cases hmsg

/-- C7, amended: on every input that is a (non-nil) Deployment, whenever the lookup
returns an object or an error, `delete` returns a status string, and so does `apply`
provided the Create call it makes on a not-found lookup returns an object or an error;
whatever errors the Get, Create, Update and Delete calls return otherwise. -/
theorem handler_returns (q : String → String) (h : deploymentHandler σ) (d : Deployment)
    (w : World σ) (hl : lookup h d w ≠ (none, none)) :
    ((IsNotFound (lookup h d w).2 = true →
        (h.kubeClient.Create NamespaceDefault d (afterLookup h d w)).1 ≠ (none, none)) →
      ∃ msg, (deploymentHandler.apply q h (RuntimeObject.deployment (some d)) w).1 =
        Outcome.returned msg) ∧
    (∃ msg, (deploymentHandler.delete q h (RuntimeObject.deployment (some d)) w).1 =
      Outcome.returned msg) :=
  ⟨fun hc => apply_returns q h d w hl hc, delete_returns q h d w hl⟩

/-- Witness of `handler_returns`: the scripted client whose lookup is refused. -/
theorem handler_returns_witness :
    lookup scriptedHandler webDescriptor (start lookupRefused) ≠ (none, none) ∧
    (∃ msg, (deploymentHandler.apply quotePlain scriptedHandler
      (RuntimeObject.deployment (some webDescriptor)) (start lookupRefused)).1 =
        Outcome.returned msg) ∧
    (∃ msg, (deploymentHandler.delete quotePlain scriptedHandler
      (RuntimeObject.deployment (some webDescriptor)) (start lookupRefused)).1 =
        Outcome.returned msg) :=
  ⟨by decide,
    (handler_returns quotePlain scriptedHandler webDescriptor (start lookupRefused)
      (by decide)).1 (fun hnf => absurd hnf (by decide)),
    (handler_returns quotePlain scriptedHandler webDescriptor (start lookupRefused)
      (by decide)).2⟩

/-- C8, as stated, fails: a call that panics emits no log entry.  On a descriptor whose
lookup returns neither an object nor an error, `apply` and `delete` panic and leave the
log empty; so does `apply` when the Create call returns neither; and so do both on an
object that is not a Deployment.  In none of these calls is the log a single entry. -/
theorem handler_panic_logs_nothing :
    ((deploymentHandler.apply quotePlain scriptedHandler
        (RuntimeObject.deployment (some webDescriptor)) (start lookupNothing)).1 =
        Outcome.panicked Panic.nilDereference ∧
      (deploymentHandler.apply quotePlain scriptedHandler
        (RuntimeObject.deployment (some webDescriptor)) (start lookupNothing)).2.log = [] ∧
      ¬ ∃ entry, (deploymentHandler.apply quotePlain scriptedHandler
        (RuntimeObject.deployment (some webDescriptor)) (start lookupNothing)).2.log =
          [entry]) ∧
    ((deploymentHandler.delete quotePlain scriptedHandler
        (RuntimeObject.deployment (some webDescriptor)) (start lookupNothing)).1 =
        Outcome.panicked Panic.nilDereference ∧
      (deploymentHandler.delete quotePlain scriptedHandler
        (RuntimeObject.deployment (some webDescriptor)) (start lookupNothing)).2.log = [] ∧
      ¬ ∃ entry, (deploymentHandler.delete quotePlain scriptedHandler
        (RuntimeObject.deployment (some webDescriptor)) (start lookupNothing)).2.log =
          [entry]) ∧
    (deploymentHandler.apply quotePlain scriptedHandler
        (RuntimeObject.deployment (some webDescriptor)) (start absentCreateNothing)).2.log =
      [] ∧
    (deploymentHandler.apply quotePlain scriptedHandler (RuntimeObject.other "Service")
        (start presentDeleteOk)).2.log = [] ∧
    (deploymentHandler.delete quotePlain scriptedHandler (RuntimeObject.other "Service")
        (start presentDeleteOk)).2.log = [] := by
  refine ⟨⟨by decide, by decide, ?_⟩, ⟨by decide, by decide, ?_⟩, by decide, by decide,
    by decide⟩
  · rintro ⟨entry, hlog⟩
    have hnil : (deploymentHandler.apply quotePlain scriptedHandler
        (RuntimeObject.deployment (some webDescriptor)) (start lookupNothing)).2.log = [] :=
      by decide
    rw [hnil] at hlog
    cases hlog
  · rintro ⟨entry, hlog⟩
    have hnil : (deploymentHandler.delete quotePlain scriptedHandler
        (RuntimeObject.deployment (some webDescriptor)) (start lookupNothing)).2.log = [] :=
      by decide
    rw [hnil] at hlog
    cases hlog

/-- C8, amended: every call of `apply` and every call of `delete` that returns a status
string `msg` has appended exactly one entry to the log, with message `msg`, at info
level when the outcome (read off the last client call and its error) is a success
(created, updated, deleted, already absent on delete) and at error level when it is a
failure (lookup, create, update or delete error); and on a Deployment the calls do
return whenever the lookup, and the Create call of `apply`, return an object or an
error. -/
theorem handler_logs_once (q : String → String) (h : deploymentHandler σ)
    (rawData : RuntimeObject) (w : World σ) :
    (∀ msg, (deploymentHandler.apply q h rawData w).1 = Outcome.returned msg →
      ∃ (last : Event) (kind : OutcomeKind),
        (deploymentHandler.apply q h rawData w).2.trace.getLast? = some last ∧
        outcomeKind false last = some kind ∧
        (deploymentHandler.apply q h rawData w).2.log =
          w.log ++ [LogEntry.mk (if kind.isSuccess then Level.info else Level.error) msg]) ∧
    (∀ msg, (deploymentHandler.delete q h rawData w).1 = Outcome.returned msg →
      ∃ (last : Event) (kind : OutcomeKind),
        (deploymentHandler.delete q h rawData w).2.trace.getLast? = some last ∧
        outcomeKind true last = some kind ∧
        (deploymentHandler.delete q h rawData w).2.log =
          w.log ++ [LogEntry.mk (if kind.isSuccess then Level.info else Level.error) msg]) ∧
    (∀ d : Deployment, rawData = RuntimeObject.deployment (some d) →
      lookup h d w ≠ (none, none) →
      ((IsNotFound (lookup h d w).2 = true →
          (h.kubeClient.Create NamespaceDefault d (afterLookup h d w)).1 ≠ (none, none)) →
        ∃ msg, (deploymentHandler.apply q h rawData w).1 = Outcome.returned msg) ∧
      (∃ msg, (deploymentHandler.delete q h rawData w).1 = Outcome.returned msg)) := by
  refine ⟨fun msg hret => apply_logs_once q h rawData w msg hret,
    fun msg hret => delete_logs_once q h rawData w msg hret, ?_⟩
  intro d hd hl
  subst hd
  exact ⟨fun hc => apply_returns q h d w hl hc, delete_returns q h d w hl⟩

/-- Witness of `handler_logs_once`: an update that succeeds after two conflicts is logged
once at info level, and a refused delete is logged once at error level. -/
theorem handler_logs_once_witness :
    ((deploymentHandler.apply quotePlain scriptedHandler
        (RuntimeObject.deployment (some webDescriptor)) (start presentTwoConflicts)).1 =
      Outcome.returned "update deployment \"web\"\n" ∧
    ∃ (last : Event) (kind : OutcomeKind),
      (deploymentHandler.apply quotePlain scriptedHandler
        (RuntimeObject.deployment (some webDescriptor))
        (start presentTwoConflicts)).2.trace.getLast? = some last ∧
      outcomeKind false last = some kind ∧
      (deploymentHandler.apply quotePlain scriptedHandler
        (RuntimeObject.deployment (some webDescriptor)) (start presentTwoConflicts)).2.log =
          (start presentTwoConflicts).log ++
            [LogEntry.mk (if kind.isSuccess then Level.info else Level.error)
              "update deployment \"web\"\n"]) ∧
    ((deploymentHandler.delete quotePlain scriptedHandler
        (RuntimeObject.deployment (some webDescriptor)) (start presentDeleteRefused)).1 =
      Outcome.returned "delete deployment err: forbidden\n" ∧
    ∃ (last : Event) (kind : OutcomeKind),
      (deploymentHandler.delete quotePlain scriptedHandler
        (RuntimeObject.deployment (some webDescriptor))
        (start presentDeleteRefused)).2.trace.getLast? = some last ∧
      outcomeKind true last = some kind ∧
      (deploymentHandler.delete quotePlain scriptedHandler
        (RuntimeObject.deployment (some webDescriptor)) (start presentDeleteRefused)).2.log =
          (start presentDeleteRefused).log ++
            [LogEntry.mk (if kind.isSuccess then Level.info else Level.error)
              "delete deployment err: forbidden\n"]) :=
  ⟨⟨by decide,
      (handler_logs_once quotePlain scriptedHandler
        (RuntimeObject.deployment (some webDescriptor)) (start presentTwoConflicts)).1
          "update deployment \"web\"\n" (by decide)⟩,
    ⟨by decide,
      (handler_logs_once quotePlain scriptedHandler
        (RuntimeObject.deployment (some webDescriptor)) (start presentDeleteRefused)).2.1
          "delete deployment err: forbidden\n" (by decide)⟩⟩

end Handlers
